import Mathlib

/-!
Verification of the Dexcom glucose-fetch service (three Python variants:
`main.py`, the hardened FastAPI app; `test_tokens.py`, the minimal FastAPI
app; `dexcom_fetch.py`, the standalone script) against its natural-language
specification.

The network is modelled as an oracle: a list of scripted responses, consumed
one per request issued.  Each operation returns its result, the updated
local state, the unconsumed tail of the oracle, and a trace of the requests
it issued (so "performs zero network calls" is `trace = []`).  Python dicts
are modelled as association lists (`List (String × String)`) with
first-match lookup; `dict.update` is `dictUpdate`.  JSON response bodies are
a `Body`: the string-valued fields (token dicts) plus the optional `egvs`
array.  A FastAPI handler that returns a plain dict responds with HTTP 200;
one that returns a `JSONResponse` responds with the explicit status code —
the `..Status` functions record the HTTP status of each handler outcome.
-/

/-- Substring test over character lists: does `needle` match at the head? -/
def matchesAt : List Char → List Char → Bool
  | [], _ => true
  | _ :: _, [] => false
  | c :: cs, d :: ds => c == d && matchesAt cs ds

/-- Substring test over character lists: does `needle` occur anywhere? -/
def occursIn (needle : List Char) : List Char → Bool
  | [] => matchesAt needle []
  | d :: ds => matchesAt needle (d :: ds) || occursIn needle ds

/-- Python's `needle in hay` on strings. -/
def strContains (hay needle : String) : Bool :=
  occursIn needle.data hay.data

/-- Parsed JSON body of a vendor response: token-style string fields and the
optional `egvs` array (a list of opaque records). -/
structure Body where
  fields : List (String × String)
  egvs : Option (List (List (String × String)))
  deriving Repr, DecidableEq

/-- A scripted vendor response: either an HTTP response (status, raw text,
parsed JSON body) or a transport-level failure (`requests.RequestException`). -/
inductive NetResp where
  | ok (status : Nat) (text : String) (body : Body)
  | exn (msg : String)
  deriving Repr, DecidableEq

/-- A request issued to the vendor: a token-endpoint POST carrying the
refresh token used (if any), or a readings GET carrying the bearer token. -/
inductive Req where
  | postToken (refreshTok : Option String)
  | getEgvs (bearer : String)
  deriving Repr, DecidableEq

abbrev Dict := List (String × String)

/-- Python `dict.update(new)` on an association-list model: keys of `new`
win; keys only in `old` survive. -/
def dictUpdate (old new : Dict) : Dict :=
  new ++ old.filter (fun kv => (new.lookup kv.1).isNone)

/-- Python truthiness of an optional string (`None` and `""` are falsy). -/
def truthy : Option String → Bool
  | none => false
  | some s => !s.isEmpty

namespace MainPy

/-- Local state of `main.py`: the in-memory `TOKENS` dict, the persisted
`tokens.json` contents (`none` = file absent), and the CSV output file
(`none` = absent, `some rows` = file holding header plus `rows`). -/
structure St where
  mem : Dict
  file : Option Dict
  csv : Option (List Dict)
  deriving Repr, DecidableEq

/-- `save_tokens`: dump the new dict wholesale to `tokens.json`, then
`TOKENS.update(tokens)` in memory. -/
def save_tokens (s : St) (tokens : Dict) : St :=
  { s with file := some tokens, mem := dictUpdate s.mem tokens }

/-- `load_tokens`: if the token file exists, `TOKENS.update(json.load(f))`. -/
def load_tokens (s : St) : St :=
  match s.file with
  | some t => { s with mem := dictUpdate s.mem t }
  | none => s

/-- Outcome of `refresh_access_token`: the returned access token, a `None`
return, or an uncaught Python exception. -/
inductive RefreshRes where
  | tok (t : String)
  | noTok
  | raised (msg : String)
  | oracleEmpty
  deriving Repr, DecidableEq

structure RefOut where
  res : RefreshRes
  st : St
  rest : List NetResp
  trace : List Req
  deriving Repr, DecidableEq

/-- `refresh_access_token()` of `main.py`: returns `None` without any
request when no refresh token is stored; POSTs the token endpoint; on a
non-200 status returns `None` leaving the state untouched; on 200 saves the
returned dict and returns its `access_token`. -/
def refresh_access_token (s : St) (net : List NetResp) : RefOut :=
  match s.mem.lookup "refresh_token" with
  | none => ⟨.noTok, s, net, []⟩
  | some rt =>
    match net with
    | [] => ⟨.oracleEmpty, s, [], [.postToken (some rt)]⟩
    | .exn m :: rest => ⟨.raised m, s, rest, [.postToken (some rt)]⟩
    | .ok status _text body :: rest =>
      if status = 200 then
        let s' := save_tokens s body.fields
        match body.fields.lookup "access_token" with
        | some t => ⟨.tok t, s', rest, [.postToken (some rt)]⟩
        | none => ⟨.raised "KeyError", s', rest, [.postToken (some rt)]⟩
      else ⟨.noTok, s, rest, [.postToken (some rt)]⟩

/-- Outcome of the `/fetch-egvs` handler. -/
inductive FetchRes where
  | errNoTokens
  | errRefreshFailed
  | errBody (text : String)
  | noData
  | saved (n : Nat)
  | raised (msg : String)
  | oracleEmpty
  deriving Repr, DecidableEq

structure FOut where
  res : FetchRes
  st : St
  rest : List NetResp
  trace : List Req
  deriving Repr, DecidableEq

/-- Tail of `fetch_egvs` after the (final) retrieval response is in hand:
non-200 returns the body as an error; an empty (or absent) `egvs` array is
the "no data" success with no CSV write; otherwise the records are written
to the CSV file, overwriting it. -/
def finishFetch (s : St) (status : Nat) (text : String) (body : Body) :
    FetchRes × St :=
  if status = 200 then
    let data := body.egvs.getD []
    if data.isEmpty then (.noData, s)
    else (.saved data.length, { s with csv := some data })
  else (.errBody text, s)

/-- The retried retrieval request of `fetch_egvs` (issued after a 401 and a
successful refresh); its response is final — a second 401 is not retried. -/
def fetchRetry (tok : String) (s : St) (net : List NetResp) (tr : List Req) :
    FOut :=
  match net with
  | [] => ⟨.oracleEmpty, s, [], tr ++ [.getEgvs tok]⟩
  | .exn m :: rest => ⟨.raised m, s, rest, tr ++ [.getEgvs tok]⟩
  | .ok status text body :: rest =>
    ⟨(finishFetch s status text body).1, (finishFetch s status text body).2,
      rest, tr ++ [.getEgvs tok]⟩

/-- First retrieval request of `fetch_egvs` with bearer token `tok`: a 401
response triggers exactly one refresh-and-retry cycle; any other response is
final. -/
def fetchWithToken (tok : String) (s : St) (net : List NetResp)
    (tr : List Req) : FOut :=
  match net with
  | [] => ⟨.oracleEmpty, s, [], tr ++ [.getEgvs tok]⟩
  | .exn m :: rest => ⟨.raised m, s, rest, tr ++ [.getEgvs tok]⟩
  | .ok status text body :: rest =>
    if status = 401 then
      let ro := refresh_access_token s rest
      let tr1 := tr ++ [.getEgvs tok] ++ ro.trace
      match ro.res with
      | .tok t2 =>
        if t2.isEmpty then ⟨.errRefreshFailed, ro.st, ro.rest, tr1⟩
        else fetchRetry t2 ro.st ro.rest tr1
      | .noTok => ⟨.errRefreshFailed, ro.st, ro.rest, tr1⟩
      | .raised m => ⟨.raised m, ro.st, ro.rest, tr1⟩
      | .oracleEmpty => ⟨.oracleEmpty, ro.st, ro.rest, tr1⟩
    else
      ⟨(finishFetch s status text body).1, (finishFetch s status text body).2,
        rest, tr ++ [.getEgvs tok]⟩

/-- The `/fetch-egvs` handler of `main.py`: take the cached access token,
refreshing first if it is missing/falsy; issue the retrieval GET; on 401
refresh once and retry once; persist the records to CSV on success. -/
def fetch_egvs (s : St) (net : List NetResp) : FOut :=
  let access := s.mem.lookup "access_token"
  if truthy access then
    fetchWithToken (access.getD "") s net []
  else
    let ro := refresh_access_token s net
    match ro.res with
    | .tok t =>
      if t.isEmpty then ⟨.errNoTokens, ro.st, ro.rest, ro.trace⟩
      else fetchWithToken t ro.st ro.rest ro.trace
    | .noTok => ⟨.errNoTokens, ro.st, ro.rest, ro.trace⟩
    | .raised m => ⟨.raised m, ro.st, ro.rest, ro.trace⟩
    | .oracleEmpty => ⟨.oracleEmpty, ro.st, ro.rest, ro.trace⟩

/-- HTTP status with which FastAPI serves each `/fetch-egvs` outcome: every
plain-dict return (including all the error dicts) is served with 200; an
uncaught exception becomes a 500. -/
def fetchStatus : FetchRes → Nat
  | .errNoTokens => 200
  | .errRefreshFailed => 200
  | .errBody _ => 200
  | .noData => 200
  | .saved _ => 200
  | .raised _ => 500
  | .oracleEmpty => 500

/-- Outcome of the hardened `/callback` handler. -/
inductive CallbackRes where
  | success (tokens : Dict)
  | vendorError (text : String) (status : Nat)
  | serviceUnavailable
  | networkError (msg : String)
  | failedAfterRetries
  | oracleEmpty
  deriving Repr, DecidableEq

structure CbOut where
  res : CallbackRes
  st : St
  rest : List NetResp
  posts : Nat
  sleeps : List Nat
  deriving Repr, DecidableEq

/-- The transient-failure test of the hardened callback: a substring match
of `"502"` or `"UAM is down"` on the full response text. -/
def transientText (t : String) : Bool :=
  strContains t "502" || strContains t "UAM is down"

/-- The retry loop of the hardened `/callback` (`for attempt in
range(max_retries)`), with `fuel` the number of loop iterations left: a 200
saves the tokens and succeeds; a non-200 whose text passes `transientText`,
or a transport exception, sleeps 5 seconds and retries while an iteration
remains, and on the last iteration yields the terminal 503
service-unavailable response (marker) or the 500 network-error response
(exception); any other non-200 fails immediately with the vendor's status.
`posts` counts requests issued, `sleeps` lists the delays slept. -/
def callbackLoop (s : St) : Nat → List NetResp → CbOut
  | 0, net => ⟨.failedAfterRetries, s, net, 0, []⟩
  | fuel + 1, net =>
    match net with
    | [] => ⟨.oracleEmpty, s, [], 1, []⟩
    | .exn m :: rest =>
      if 1 ≤ fuel then
        let out := callbackLoop s fuel rest
        ⟨out.res, out.st, out.rest, out.posts + 1, 5 :: out.sleeps⟩
      else ⟨.networkError m, s, rest, 1, []⟩
    | .ok status text body :: rest =>
      if status = 200 then
        ⟨.success body.fields, save_tokens s body.fields, rest, 1, []⟩
      else if transientText text then
        if 1 ≤ fuel then
          let out := callbackLoop s fuel rest
          ⟨out.res, out.st, out.rest, out.posts + 1, 5 :: out.sleeps⟩
        else ⟨.serviceUnavailable, s, rest, 1, []⟩
      else ⟨.vendorError text status, s, rest, 1, []⟩

/-- The hardened `/callback` handler of `main.py`: the retry loop with
`max_retries = 3`. -/
def callback (s : St) (net : List NetResp) : CbOut :=
  callbackLoop s 3 net

/-- HTTP status with which FastAPI serves each `/callback` outcome: the
success dict is 200; the `JSONResponse` error paths carry their explicit
status codes (vendor status, 503, or 500). -/
def cbStatus : CallbackRes → Nat
  | .success _ => 200
  | .vendorError _ st => st
  | .serviceUnavailable => 503
  | .networkError _ => 500
  | .failedAfterRetries => 500
  | .oracleEmpty => 500

/-- The Dexcom OAuth endpoints of `main.py`. -/
def DEXCOM_AUTH_URL : String := "https://api.dexcom.com/v2/oauth2/login"

/-- The `/login` handler: a pure f-string build of the authorization URL
from the client id and redirect URI (environment-sourced), issuing no
request. -/
def login (clientId redirectUri : String) : String × List Req :=
  (DEXCOM_AUTH_URL ++ "?client_id=" ++ clientId
    ++ "&redirect_uri=" ++ redirectUri
    ++ "&response_type=code"
    ++ "&scope=offline_access egv calibration device statistics event", [])

end MainPy

namespace TestTokens

/-- Outcome of a `test_tokens.py` handler (`/callback` or `/refresh`). -/
inductive TRes where
  | success (tokens : Dict)
  | vendorError (text : String) (status : Nat)
  | errNoToken
  | raised (msg : String)
  | oracleEmpty
  deriving Repr, DecidableEq

/-- Output of a `test_tokens.py` handler: result, in-memory `TOKENS` dict
(this variant has no token file), oracle tail, requests issued. -/
structure TOut where
  res : TRes
  mem : Dict
  rest : List NetResp
  trace : List Req
  deriving Repr, DecidableEq

/-- The `/callback` handler of `test_tokens.py`: one POST, no retry; a
non-200 surfaces the vendor's text and status via `JSONResponse`; a 200
merges the returned dict into `TOKENS`. -/
def callback (mem : Dict) (net : List NetResp) : TOut :=
  match net with
  | [] => ⟨.oracleEmpty, mem, [], [.postToken none]⟩
  | .exn m :: rest => ⟨.raised m, mem, rest, [.postToken none]⟩
  | .ok status text body :: rest =>
    if status = 200 then
      ⟨.success body.fields, dictUpdate mem body.fields, rest, [.postToken none]⟩
    else ⟨.vendorError text status, mem, rest, [.postToken none]⟩

/-- The `/refresh` handler of `test_tokens.py`: fails locally (no request)
when no refresh token is stored; otherwise one POST; a non-200 surfaces the
vendor's text and status leaving `TOKENS` untouched; a 200 merges the
returned dict into `TOKENS`. -/
def refresh (mem : Dict) (net : List NetResp) : TOut :=
  match mem.lookup "refresh_token" with
  | none => ⟨.errNoToken, mem, net, []⟩
  | some rt =>
    match net with
    | [] => ⟨.oracleEmpty, mem, [], [.postToken (some rt)]⟩
    | .exn m :: rest => ⟨.raised m, mem, rest, [.postToken (some rt)]⟩
    | .ok status text body :: rest =>
      if status = 200 then
        ⟨.success body.fields, dictUpdate mem body.fields, rest,
          [.postToken (some rt)]⟩
      else ⟨.vendorError text status, mem, rest, [.postToken (some rt)]⟩

/-- HTTP status with which FastAPI serves each handler outcome: plain dicts
(success, and the missing-refresh-token error) are 200; `JSONResponse`
errors carry the vendor's status; an uncaught exception becomes a 500. -/
def tStatus : TRes → Nat
  | .success _ => 200
  | .vendorError _ st => st
  | .errNoToken => 200
  | .raised _ => 500
  | .oracleEmpty => 500

end TestTokens

namespace DexcomFetch

/-- Outcome of `refresh_access_token()` in `dexcom_fetch.py`: the returned
`(access_token, refresh_token)` pair, or the generic `Exception` raised on
a non-200 (carrying the response text), or an uncaught error. -/
inductive DRes where
  | tokens (access refresh : String)
  | failed (text : String)
  | raised (msg : String)
  | oracleEmpty
  deriving Repr, DecidableEq

/-- `refresh_access_token()` of `dexcom_fetch.py`: POSTs the token endpoint
unconditionally with the environment-sourced refresh token (even when that
is absent); there is no local precondition check and no persistence. -/
def refresh_access_token (refreshTok : Option String) (net : List NetResp) :
    DRes × List NetResp × List Req :=
  match net with
  | [] => (.oracleEmpty, [], [.postToken refreshTok])
  | .exn m :: rest => (.raised m, rest, [.postToken refreshTok])
  | .ok status text body :: rest =>
    if status = 200 then
      match body.fields.lookup "access_token",
            body.fields.lookup "refresh_token" with
      | some a, some r => (.tokens a r, rest, [.postToken refreshTok])
      | _, _ => (.raised "KeyError", rest, [.postToken refreshTok])
    else (.failed text, rest, [.postToken refreshTok])

/-- Outcome of `fetch_glucose_data`. -/
inductive GRes where
  | readings (l : List Dict)
  | failed (text : String)
  | raised (msg : String)
  | oracleEmpty
  deriving Repr, DecidableEq

/-- `fetch_glucose_data` of `dexcom_fetch.py`: one GET with the bearer
token; 200 yields `json().get("egvs", [])`; otherwise a generic
`Exception` with the response text. -/
def fetch_glucose_data (accessTok : String) (net : List NetResp) :
    GRes × List NetResp × List Req :=
  match net with
  | [] => (.oracleEmpty, [], [.getEgvs accessTok])
  | .exn m :: rest => (.raised m, rest, [.getEgvs accessTok])
  | .ok status text body :: rest =>
    if status = 200 then (.readings (body.egvs.getD []), rest, [.getEgvs accessTok])
    else (.failed text, rest, [.getEgvs accessTok])

/-- `save_to_csv` of `dexcom_fetch.py` on the CSV file state (`none` =
absent): empty data writes nothing at all; otherwise rows are appended to
an existing file, or a fresh file (header plus rows) is created. -/
def save_to_csv (csv : Option (List Dict)) (data : List Dict) :
    Option (List Dict) :=
  if data.isEmpty then csv
  else
    match csv with
    | some rows => some (rows ++ data)
    | none => some data

end DexcomFetch

/-! ### Helper lemmas -/

theorem matchesAt_self_append (n t : List Char) : matchesAt n (n ++ t) = true := by
  induction n with
  | nil => rfl
  | cons c cs ih => simp [matchesAt, ih]

theorem occursIn_nil_needle (t : List Char) : occursIn [] t = true := by
  cases t <;> simp [occursIn, matchesAt]

theorem occursIn_self_append (n t : List Char) : occursIn n (n ++ t) = true := by
  cases n with
  | nil => exact occursIn_nil_needle _
  | cons c cs =>
    simp only [occursIn, Bool.or_eq_true]
    exact Or.inl (matchesAt_self_append (c :: cs) t)

theorem occursIn_append_left (n pre t : List Char) (h : occursIn n t = true) :
    occursIn n (pre ++ t) = true := by
  induction pre with
  | nil => simpa using h
  | cons c cs ih => simp [occursIn, ih]

theorem strContains_append_mid (pre mid suf : String) :
    strContains (pre ++ (mid ++ suf)) mid = true := by
  unfold strContains
  rw [String.data_append, String.data_append]
  exact occursIn_append_left _ _ _ (occursIn_self_append _ _)

theorem lookup_filter_keep (new : Dict) (k : String) (old : Dict) :
    (old.filter (fun kv => (new.lookup kv.1).isNone)).lookup k =
      if (new.lookup k).isNone then old.lookup k else none := by
  induction old with
  | nil => simp
  | cons hd tl ih =>
    rcases hd with ⟨a, b⟩
    by_cases hp : (new.lookup a).isNone
    · by_cases hk : k = a
      · subst hk
        simp [List.filter_cons, hp, List.lookup]
      · have hb : (k == a) = false := beq_eq_false_iff_ne.mpr hk
        simp [List.filter_cons, hp, List.lookup, hb, ih]
    · by_cases hk : k = a
      · subst hk
        simp only [List.filter_cons]
        rw [if_neg (by simpa using hp)]
        rw [ih]
        simp [hp]
      · have hb : (k == a) = false := beq_eq_false_iff_ne.mpr hk
        simp [List.filter_cons, hp, List.lookup, hb, ih]

theorem lookup_append_or (l₁ l₂ : Dict) (k : String) :
    (l₁ ++ l₂).lookup k = ((l₁.lookup k).or (l₂.lookup k)) := by
  induction l₁ with
  | nil => simp
  | cons hd tl ih =>
    rcases hd with ⟨a, b⟩
    by_cases hk : k = a
    · subst hk; simp [List.lookup]
    · have hb : (k == a) = false := beq_eq_false_iff_ne.mpr hk
      simp [List.lookup, hb, ih]

theorem lookup_dictUpdate (old new : Dict) (k : String) :
    (dictUpdate old new).lookup k = ((new.lookup k).or (old.lookup k)) := by
  unfold dictUpdate
  rw [lookup_append_or, lookup_filter_keep]
  cases h : new.lookup k <;> simp [h]

theorem dictUpdate_nil_left (new : Dict) : dictUpdate [] new = new := by
  simp [dictUpdate]

theorem callbackLoop_posts_le (fuel : Nat) :
    ∀ (s : MainPy.St) (net : List NetResp),
      (MainPy.callbackLoop s fuel net).posts ≤ fuel := by
  induction fuel with
  | zero => intro s net; simp [MainPy.callbackLoop]
  | succ fuel ih =>
    intro s net
    match net with
    | [] => simp [MainPy.callbackLoop]
    | .exn m :: rest =>
      by_cases h : 1 ≤ fuel
      · simpa [MainPy.callbackLoop, h] using Nat.succ_le_succ (ih s rest)
      · simp [MainPy.callbackLoop, h]
    | .ok status text body :: rest =>
      by_cases h200 : status = 200
      · simp [MainPy.callbackLoop, h200]
      · by_cases ht : MainPy.transientText text
        · by_cases h : 1 ≤ fuel
          · simpa [MainPy.callbackLoop, h200, ht, h] using Nat.succ_le_succ (ih s rest)
          · simp [MainPy.callbackLoop, h200, ht, h]
        · simp [MainPy.callbackLoop, h200, ht]

/-! ### Claim theorems -/

/-- C1 counterexample: exhausting all 3 attempts of the hardened
code-exchange via the transport-error trigger does not yield the terminal
service-unavailable error (503); it yields the generic 500 network-error
response, refuting the claim's "for both ... the transport-error trigger"
part. -/
theorem C1_counterexample :
    (MainPy.callback ⟨[], none, none⟩
        [.exn "connection reset", .exn "connection reset",
         .exn "connection reset"]).res = .networkError "connection reset"
    ∧ (MainPy.callback ⟨[], none, none⟩
        [.exn "connection reset", .exn "connection reset",
         .exn "connection reset"]).res ≠ .serviceUnavailable
    ∧ MainPy.cbStatus (MainPy.callback ⟨[], none, none⟩
        [.exn "connection reset", .exn "connection reset",
         .exn "connection reset"]).res = 500 :=
  ⟨rfl, by decide, rfl⟩

/-- C1 (amended): the hardened code-exchange makes at most 3 attempts with
a fixed 5-second delay between attempts; a retry is triggered only by a
transport-level network error or a non-success body containing the
service-unavailable marker; every other non-success response fails
immediately with the vendor's status and no delay; exhausting all 3
attempts via the marker trigger yields the terminal 503
service-unavailable error, distinct from a generic exchange failure, while
exhausting via the transport trigger yields a 500 network error instead. -/
theorem C1_retry_policy :
    (∀ (s : MainPy.St) (net : List NetResp),
      (MainPy.callback s net).posts ≤ 3)
    ∧ (∀ (s : MainPy.St) (status : Nat) (text : String) (body : Body)
        (rest : List NetResp), ¬ status = 200 →
        MainPy.transientText text = false →
        MainPy.callback s (.ok status text body :: rest) =
          ⟨.vendorError text status, s, rest, 1, []⟩)
    ∧ (∀ (s : MainPy.St) (st1 st2 : Nat) (t1 t2 t3 : String)
        (b1 b2 b3 : Body) (rest : List NetResp),
        ¬ st1 = 200 → MainPy.transientText t1 = true →
        ¬ st2 = 200 → MainPy.transientText t2 = true →
        MainPy.callback s
            (.ok st1 t1 b1 :: .ok st2 t2 b2 :: .ok 200 t3 b3 :: rest) =
          ⟨.success b3.fields, MainPy.save_tokens s b3.fields, rest, 3, [5, 5]⟩)
    ∧ (∀ (s : MainPy.St) (st1 st2 st3 : Nat) (t1 t2 t3 : String)
        (b1 b2 b3 : Body) (rest : List NetResp),
        ¬ st1 = 200 → MainPy.transientText t1 = true →
        ¬ st2 = 200 → MainPy.transientText t2 = true →
        ¬ st3 = 200 → MainPy.transientText t3 = true →
        MainPy.callback s
            (.ok st1 t1 b1 :: .ok st2 t2 b2 :: .ok st3 t3 b3 :: rest) =
          ⟨.serviceUnavailable, s, rest, 3, [5, 5]⟩
        ∧ MainPy.cbStatus .serviceUnavailable = 503)
    ∧ (∀ (s : MainPy.St) (m1 m2 m3 : String) (rest : List NetResp),
        MainPy.callback s (.exn m1 :: .exn m2 :: .exn m3 :: rest) =
          ⟨.networkError m3, s, rest, 3, [5, 5]⟩)
    ∧ (∀ (t : String) (c : Nat),
        (MainPy.CallbackRes.serviceUnavailable) ≠ .vendorError t c) := by
  refine ⟨fun s net => callbackLoop_posts_le 3 s net, ?_, ?_, ?_, ?_, ?_⟩
  · intro s status text body rest h ht
    simp [MainPy.callback, MainPy.callbackLoop, h, ht]
  · intro s st1 st2 t1 t2 t3 b1 b2 b3 rest h1 ht1 h2 ht2
    simp [MainPy.callback, MainPy.callbackLoop, h1, ht1, h2, ht2]
  · intro s st1 st2 st3 t1 t2 t3 b1 b2 b3 rest h1 ht1 h2 ht2 h3 ht3
    exact ⟨by simp [MainPy.callback, MainPy.callbackLoop, h1, ht1, h2, ht2, h3, ht3], rfl⟩
  · intro s m1 m2 m3 rest
    simp [MainPy.callback, MainPy.callbackLoop]
  · intro t c h
    exact MainPy.CallbackRes.noConfusion h

/-- C1 witness: the amended policy applied to concrete runs — two marker
responses then a success exchange succeeds on the 3rd attempt with two
5-second delays, and three marker responses end in the 503 terminal
error. -/
theorem C1_retry_policy_witness :
    MainPy.callback ⟨[], none, none⟩
        [.ok 500 "server returned 502" ⟨[], none⟩,
         .ok 503 "UAM is down for maintenance" ⟨[], none⟩,
         .ok 200 "" ⟨[("access_token", "a1")], none⟩] =
      ⟨.success [("access_token", "a1")],
        MainPy.save_tokens ⟨[], none, none⟩ [("access_token", "a1")],
        [], 3, [5, 5]⟩
    ∧ MainPy.callback ⟨[], none, none⟩
        [.ok 500 "server returned 502" ⟨[], none⟩,
         .ok 500 "server returned 502" ⟨[], none⟩,
         .ok 500 "server returned 502" ⟨[], none⟩] =
      ⟨.serviceUnavailable, ⟨[], none, none⟩, [], 3, [5, 5]⟩ :=
  ⟨C1_retry_policy.2.2.1 ⟨[], none, none⟩ 500 503
      "server returned 502" "UAM is down for maintenance" ""
      ⟨[], none⟩ ⟨[], none⟩ ⟨[("access_token", "a1")], none⟩ []
      (by decide) (by decide) (by decide) (by decide),
    (C1_retry_policy.2.2.2.1 ⟨[], none, none⟩ 500 500 500
      "server returned 502" "server returned 502" "server returned 502"
      ⟨[], none⟩ ⟨[], none⟩ ⟨[], none⟩ []
      (by decide) (by decide) (by decide) (by decide)
      (by decide) (by decide)).1⟩

/-- C2 (confirmed): when the first retrieval request of `fetch_egvs`
returns 401, a successful refresh leads to exactly one additional
retrieval request, issued with the new access token, with no further
refresh (the trace is exactly one GET, one refresh POST, one GET, and the
outcome is decided by the retried response alone); a failed refresh makes
the operation fail with the refresh error, the state untouched and no
second retrieval issued. -/
theorem C2_fetch_401_single_retry (s : MainPy.St) (tok rt : String)
    (htok : s.mem.lookup "access_token" = some tok)
    (hne : tok.isEmpty = false)
    (hrt : s.mem.lookup "refresh_token" = some rt) :
    (∀ (t1 t2 t3 : String) (b1 b2 b3 : Body) (newTok : String) (st3 : Nat)
      (rest : List NetResp),
      b2.fields.lookup "access_token" = some newTok →
      newTok.isEmpty = false →
      MainPy.fetch_egvs s
          (.ok 401 t1 b1 :: .ok 200 t2 b2 :: .ok st3 t3 b3 :: rest) =
        ⟨(MainPy.finishFetch (MainPy.save_tokens s b2.fields) st3 t3 b3).1,
         (MainPy.finishFetch (MainPy.save_tokens s b2.fields) st3 t3 b3).2,
         rest, [.getEgvs tok, .postToken (some rt), .getEgvs newTok]⟩)
    ∧ (∀ (t1 t2 : String) (b1 b2 : Body) (st2 : Nat) (rest : List NetResp),
      ¬ st2 = 200 →
      MainPy.fetch_egvs s (.ok 401 t1 b1 :: .ok st2 t2 b2 :: rest) =
        ⟨.errRefreshFailed, s, rest, [.getEgvs tok, .postToken (some rt)]⟩) := by
  constructor
  · intro t1 t2 t3 b1 b2 b3 newTok st3 rest hat hnew
    simp [MainPy.fetch_egvs, MainPy.fetchWithToken, MainPy.fetchRetry,
      MainPy.refresh_access_token, truthy, htok, hne, hrt, hat, hnew]
  · intro t1 t2 b1 b2 st2 rest h2
    simp [MainPy.fetch_egvs, MainPy.fetchWithToken,
      MainPy.refresh_access_token, truthy, htok, hne, hrt, h2]

/-- C2 witness: a concrete 401-then-successful-refresh run retries exactly
once with the new token and succeeds, and a concrete 401-then-failed-refresh
run fails with the refresh error after only the refresh POST. -/
theorem C2_fetch_401_single_retry_witness :
    MainPy.fetch_egvs ⟨[("access_token", "t0"), ("refresh_token", "r0")], none, none⟩
        [.ok 401 "unauthorized" ⟨[], none⟩,
         .ok 200 "" ⟨[("access_token", "a2"), ("refresh_token", "r2")], none⟩,
         .ok 200 "" ⟨[], some [[("value", "100")]]⟩] =
      ⟨.saved 1,
        ⟨[("access_token", "a2"), ("refresh_token", "r2")],
          some [("access_token", "a2"), ("refresh_token", "r2")],
          some [[("value", "100")]]⟩,
        [], [.getEgvs "t0", .postToken (some "r0"), .getEgvs "a2"]⟩
    ∧ MainPy.fetch_egvs ⟨[("access_token", "t0"), ("refresh_token", "r0")], none, none⟩
        [.ok 401 "unauthorized" ⟨[], none⟩, .ok 500 "refused" ⟨[], none⟩] =
      ⟨.errRefreshFailed,
        ⟨[("access_token", "t0"), ("refresh_token", "r0")], none, none⟩,
        [], [.getEgvs "t0", .postToken (some "r0")]⟩ :=
  ⟨((C2_fetch_401_single_retry
      ⟨[("access_token", "t0"), ("refresh_token", "r0")], none, none⟩
      "t0" "r0" rfl rfl rfl).1 "unauthorized" "" "" ⟨[], none⟩
      ⟨[("access_token", "a2"), ("refresh_token", "r2")], none⟩
      ⟨[], some [[("value", "100")]]⟩ "a2" 200 [] rfl rfl).trans rfl,
    (C2_fetch_401_single_retry
      ⟨[("access_token", "t0"), ("refresh_token", "r0")], none, none⟩
      "t0" "r0" rfl rfl rfl).2 "unauthorized" "refused" ⟨[], none⟩
      ⟨[], none⟩ 500 [] (by decide)⟩

/-- C3 (confirmed): when the refresh exchange receives a non-success
status, the operation fails (`None` return in `main.py`, vendor-status
error response in `test_tokens.py`) and the returned state is exactly the
prior state: neither the in-memory store nor the persisted token file is
mutated. -/
theorem C3_refresh_failure_no_mutation (s : MainPy.St) (mem : Dict)
    (rt rt' text text' : String) (status status' : Nat) (body body' : Body)
    (rest rest' : List NetResp)
    (hrt : s.mem.lookup "refresh_token" = some rt)
    (h : ¬ status = 200)
    (hrt' : mem.lookup "refresh_token" = some rt')
    (h' : ¬ status' = 200) :
    MainPy.refresh_access_token s (.ok status text body :: rest) =
      ⟨.noTok, s, rest, [.postToken (some rt)]⟩
    ∧ TestTokens.refresh mem (.ok status' text' body' :: rest') =
      ⟨.vendorError text' status', mem, rest', [.postToken (some rt')]⟩ := by
  constructor
  · simp [MainPy.refresh_access_token, hrt, h]
  · simp [TestTokens.refresh, hrt', h']

/-- C3 witness: a concrete rejected refresh in each server variant leaves
the concrete stored credential exactly as it was. -/
theorem C3_refresh_failure_no_mutation_witness :
    MainPy.refresh_access_token
        ⟨[("access_token", "t0"), ("refresh_token", "r0")],
          some [("access_token", "t0"), ("refresh_token", "r0")], none⟩
        [.ok 400 "invalid_grant" ⟨[], none⟩] =
      ⟨.noTok,
        ⟨[("access_token", "t0"), ("refresh_token", "r0")],
          some [("access_token", "t0"), ("refresh_token", "r0")], none⟩,
        [], [.postToken (some "r0")]⟩
    ∧ TestTokens.refresh [("refresh_token", "r0")]
        [.ok 400 "invalid_grant" ⟨[], none⟩] =
      ⟨.vendorError "invalid_grant" 400, [("refresh_token", "r0")],
        [], [.postToken (some "r0")]⟩ :=
  C3_refresh_failure_no_mutation
    ⟨[("access_token", "t0"), ("refresh_token", "r0")],
      some [("access_token", "t0"), ("refresh_token", "r0")], none⟩
    [("refresh_token", "r0")] "r0" "r0" "invalid_grant" "invalid_grant"
    400 400 ⟨[], none⟩ ⟨[], none⟩ [] [] rfl (by decide) rfl (by decide)

/-- C4 counterexample: in the script variant (`dexcom_fetch.py`), calling
the refresh operation with no stored refresh token does not fail locally
with a no-refresh-token error and zero network calls: it issues one POST
to the vendor regardless and raises the generic refresh-failure exception
on the vendor's rejection. -/
theorem C4_counterexample :
    DexcomFetch.refresh_access_token none
        [.ok 401 "invalid_client" ⟨[], none⟩] =
      (.failed "invalid_client", [], [.postToken none])
    ∧ (DexcomFetch.refresh_access_token none
        [.ok 401 "invalid_client" ⟨[], none⟩]).2.2.length = 1 :=
  ⟨rfl, rfl⟩

/-- C4 (amended): in the two server variants the refresh operation with no
stored refresh token always fails locally (a `None` return in `main.py`, a
no-refresh-token error dict in `test_tokens.py`) with zero network calls;
the script variant instead issues exactly one POST regardless of whether a
refresh token is configured. -/
theorem C4_no_refresh_token (s : MainPy.St) (mem : Dict)
    (net net' : List NetResp)
    (h1 : s.mem.lookup "refresh_token" = none)
    (h2 : mem.lookup "refresh_token" = none) :
    MainPy.refresh_access_token s net = ⟨.noTok, s, net, []⟩
    ∧ TestTokens.refresh mem net' = ⟨.errNoToken, mem, net', []⟩
    ∧ (∀ (rt : Option String) (r : NetResp) (rest : List NetResp),
        (DexcomFetch.refresh_access_token rt (r :: rest)).2.2 = [.postToken rt]) := by
  refine ⟨?_, ?_, ?_⟩
  · simp [MainPy.refresh_access_token, h1]
  · simp [TestTokens.refresh, h2]
  · intro rt r rest
    cases r with
    | exn m => rfl
    | ok status text body =>
      by_cases h : status = 200
      · simp only [DexcomFetch.refresh_access_token, h, if_true]
        cases ha : body.fields.lookup "access_token" <;>
          cases hb : body.fields.lookup "refresh_token" <;> simp [ha, hb]
      · simp [DexcomFetch.refresh_access_token, h]

/-- C4 witness: a concrete token-less refresh in each server variant makes
no request, while the script variant issues one. -/
theorem C4_no_refresh_token_witness :
    MainPy.refresh_access_token ⟨[("access_token", "t0")], none, none⟩
        [.ok 200 "" ⟨[("access_token", "a1")], none⟩] =
      ⟨.noTok, ⟨[("access_token", "t0")], none, none⟩,
        [.ok 200 "" ⟨[("access_token", "a1")], none⟩], []⟩
    ∧ TestTokens.refresh [] [] = ⟨.errNoToken, [], [], []⟩
    ∧ (DexcomFetch.refresh_access_token none
        [.exn "connection refused"]).2.2 = [.postToken none] := by
  have h := C4_no_refresh_token ⟨[("access_token", "t0")], none, none⟩ []
    [.ok 200 "" ⟨[("access_token", "a1")], none⟩] [] rfl rfl
  exact ⟨h.1, h.2.1, h.2.2 none (.exn "connection refused") []⟩

/-- C5 counterexample: a successful retrieval whose payload is an empty
reading list returns the "no data" success, but no output file is written
at all — starting with no CSV file present, the file is still absent
afterwards, so no header-only or empty output file exists. -/
theorem C5_counterexample :
    (MainPy.fetch_egvs ⟨[("access_token", "t0")], none, none⟩
        [.ok 200 "" ⟨[], some []⟩]).res = .noData
    ∧ (MainPy.fetch_egvs ⟨[("access_token", "t0")], none, none⟩
        [.ok 200 "" ⟨[], some []⟩]).st.csv = none :=
  ⟨rfl, rfl⟩

/-- C5 (amended): an empty retrieval result is a success with zero
records, never an error (served with HTTP 200), and writes no output
file: the local state — in particular the CSV file — is left exactly as
it was, in both the server and the script variant. -/
theorem C5_empty_result (s : MainPy.St) (tok text : String) (body : Body)
    (rest : List NetResp) (csv : Option (List Dict))
    (htok : s.mem.lookup "access_token" = some tok)
    (hne : tok.isEmpty = false)
    (hempty : body.egvs.getD [] = []) :
    MainPy.fetch_egvs s (.ok 200 text body :: rest) =
      ⟨.noData, s, rest, [.getEgvs tok]⟩
    ∧ MainPy.fetchStatus .noData = 200
    ∧ DexcomFetch.save_to_csv csv [] = csv := by
  refine ⟨?_, rfl, ?_⟩
  · simp [MainPy.fetch_egvs, MainPy.fetchWithToken, MainPy.finishFetch,
      truthy, htok, hne, hempty]
  · simp [DexcomFetch.save_to_csv]

/-- C5 witness: a concrete empty-payload retrieval returns the "no data"
success, leaves the state untouched, and the script-variant CSV writer
leaves an existing file unchanged on empty data. -/
theorem C5_empty_result_witness :
    MainPy.fetch_egvs ⟨[("access_token", "t0")], none, none⟩
        [.ok 200 "" ⟨[], some []⟩] =
      ⟨.noData, ⟨[("access_token", "t0")], none, none⟩, [], [.getEgvs "t0"]⟩
    ∧ MainPy.fetchStatus .noData = 200
    ∧ DexcomFetch.save_to_csv (some [[("value", "95")]]) [] =
        some [[("value", "95")]] :=
  C5_empty_result ⟨[("access_token", "t0")], none, none⟩ "t0" ""
    ⟨[], some []⟩ [] (some [[("value", "95")]]) rfl rfl rfl

/-- C6 counterexample: after a successful exchange saved via
`save_tokens`, a key of the prior credential that is absent from the newly
returned credential survives in the in-memory store (`TOKENS.update`
merges, it does not replace wholesale), so the in-memory credential is not
the returned credential. -/
theorem C6_counterexample :
    (MainPy.save_tokens ⟨[("stale", "x"), ("refresh_token", "r")], none, none⟩
        [("access_token", "a"), ("refresh_token", "r2")]).mem.lookup "stale" =
      some "x"
    ∧ ¬ (MainPy.save_tokens ⟨[("stale", "x"), ("refresh_token", "r")], none, none⟩
        [("access_token", "a"), ("refresh_token", "r2")]).mem =
      [("access_token", "a"), ("refresh_token", "r2")] :=
  ⟨rfl, by decide⟩

/-- C6 (amended): on every successful exchange the hardened variant
synchronously replaces the persisted token file wholesale with the newly
returned credential, but the in-memory store is merged (`dict.update`):
new keys win, while keys of the prior credential absent from the new one
survive in memory; the minimal server variant likewise merges its
in-memory store and has no durable persistence at all. -/
theorem C6_store_update_semantics :
    (∀ (s : MainPy.St) (new : Dict),
      (MainPy.save_tokens s new).file = some new)
    ∧ (∀ (s : MainPy.St) (new : Dict) (k : String),
      (MainPy.save_tokens s new).mem.lookup k =
        ((new.lookup k).or (s.mem.lookup k)))
    ∧ (∀ (mem : Dict) (rt text : String) (body : Body) (rest : List NetResp),
      mem.lookup "refresh_token" = some rt →
      TestTokens.refresh mem (.ok 200 text body :: rest) =
        ⟨.success body.fields, dictUpdate mem body.fields, rest,
          [.postToken (some rt)]⟩) := by
  refine ⟨fun s new => rfl, fun s new k => lookup_dictUpdate _ _ _, ?_⟩
  intro mem rt text body rest hrt
  simp [TestTokens.refresh, hrt]

/-- C6 witness: a concrete successful refresh in the minimal variant
merges the returned credential into the store, and the merge keeps a stale
extra key. -/
theorem C6_store_update_semantics_witness :
    TestTokens.refresh [("refresh_token", "r0"), ("extra", "x")]
        [.ok 200 "" ⟨[("access_token", "a1"), ("refresh_token", "r1")], none⟩] =
      ⟨.success [("access_token", "a1"), ("refresh_token", "r1")],
        dictUpdate [("refresh_token", "r0"), ("extra", "x")]
          [("access_token", "a1"), ("refresh_token", "r1")],
        [], [.postToken (some "r0")]⟩
    ∧ (MainPy.save_tokens ⟨[("extra", "x")], none, none⟩
        [("access_token", "a1")]).mem.lookup "extra" =
      (([("access_token", "a1")] : Dict).lookup "extra").or
        (([("extra", "x")] : Dict).lookup "extra") :=
  ⟨C6_store_update_semantics.2.2 [("refresh_token", "r0"), ("extra", "x")]
      "r0" "" ⟨[("access_token", "a1"), ("refresh_token", "r1")], none⟩ [] rfl,
    C6_store_update_semantics.2.1 ⟨[("extra", "x")], none, none⟩
      [("access_token", "a1")] "extra"⟩

/-- C7 counterexample: a rejected retrieval (vendor status 403) surfaces
from the `/fetch-egvs` entrypoint as a plain error dict served with HTTP
200, not with the originating vendor status code. -/
theorem C7_counterexample :
    (MainPy.fetch_egvs ⟨[("access_token", "t0")], none, none⟩
        [.ok 403 "Forbidden" ⟨[], none⟩]).res = .errBody "Forbidden"
    ∧ MainPy.fetchStatus (MainPy.fetch_egvs ⟨[("access_token", "t0")], none, none⟩
        [.ok 403 "Forbidden" ⟨[], none⟩]).res = 200
    ∧ ¬ MainPy.fetchStatus (MainPy.fetch_egvs ⟨[("access_token", "t0")], none, none⟩
        [.ok 403 "Forbidden" ⟨[], none⟩]).res = 403 :=
  ⟨rfl, rfl, by decide⟩

/-- C7 (amended): the code-exchange entrypoints surface vendor-facing
errors with the originating vendor status code (falling back to 500 after
transport failures), and no error is silently swallowed except the
empty-data case, which is a success; the readings entrypoint, however,
returns its structured error payloads (including a rejected retrieval's
body) with HTTP 200 — the vendor's status survives only inside the
payload. -/
theorem C7_error_propagation :
    (∀ (s : MainPy.St) (status : Nat) (text : String) (body : Body)
      (rest : List NetResp), ¬ status = 200 →
      MainPy.transientText text = false →
      MainPy.cbStatus (MainPy.callback s (.ok status text body :: rest)).res =
        status)
    ∧ (∀ (s : MainPy.St) (m1 m2 m3 : String) (rest : List NetResp),
      MainPy.cbStatus
        (MainPy.callback s (.exn m1 :: .exn m2 :: .exn m3 :: rest)).res = 500)
    ∧ (∀ (mem : Dict) (status : Nat) (text : String) (body : Body)
      (rest : List NetResp), ¬ status = 200 →
      TestTokens.tStatus
        (TestTokens.callback mem (.ok status text body :: rest)).res = status)
    ∧ (∀ (s : MainPy.St) (tok text : String) (status : Nat) (body : Body)
      (rest : List NetResp),
      s.mem.lookup "access_token" = some tok → tok.isEmpty = false →
      ¬ status = 200 → ¬ status = 401 →
      (MainPy.fetch_egvs s (.ok status text body :: rest)).res = .errBody text
      ∧ MainPy.fetchStatus
          (MainPy.fetch_egvs s (.ok status text body :: rest)).res = 200)
    ∧ MainPy.fetchStatus .noData = 200 := by
  refine ⟨?_, ?_, ?_, ?_, rfl⟩
  · intro s status text body rest h ht
    simp [MainPy.callback, MainPy.callbackLoop, MainPy.cbStatus, h, ht]
  · intro s m1 m2 m3 rest
    simp [MainPy.callback, MainPy.callbackLoop, MainPy.cbStatus]
  · intro mem status text body rest h
    simp [TestTokens.callback, TestTokens.tStatus, h]
  · intro s tok text status body rest htok hne h200 h401
    have hres : (MainPy.fetch_egvs s (.ok status text body :: rest)).res =
        .errBody text := by
      simp [MainPy.fetch_egvs, MainPy.fetchWithToken, MainPy.finishFetch,
        truthy, htok, hne, h200, h401]
    exact ⟨hres, by rw [hres]; rfl⟩

/-- C7 witness: a concrete rejected exchange is served with the vendor's
status (400) by `/callback`, while a concrete rejected retrieval is served
with HTTP 200 by `/fetch-egvs`. -/
theorem C7_error_propagation_witness :
    MainPy.cbStatus (MainPy.callback ⟨[], none, none⟩
        [.ok 400 "invalid_grant" ⟨[], none⟩]).res = 400
    ∧ TestTokens.tStatus (TestTokens.callback []
        [.ok 400 "invalid_grant" ⟨[], none⟩]).res = 400
    ∧ (MainPy.fetch_egvs ⟨[("access_token", "t0")], none, none⟩
        [.ok 500 "server error" ⟨[], none⟩]).res = .errBody "server error"
    ∧ MainPy.fetchStatus (MainPy.fetch_egvs ⟨[("access_token", "t0")], none, none⟩
        [.ok 500 "server error" ⟨[], none⟩]).res = 200 := by
  have h4 := C7_error_propagation.2.2.2.1 ⟨[("access_token", "t0")], none, none⟩
    "t0" "server error" 500 ⟨[], none⟩ [] rfl rfl (by decide) (by decide)
  exact ⟨C7_error_propagation.1 ⟨[], none, none⟩ 400 "invalid_grant" ⟨[], none⟩
      [] (by decide) (by decide),
    C7_error_propagation.2.2.1 [] 400 "invalid_grant" ⟨[], none⟩ [] (by decide),
    h4.1, h4.2⟩

theorem occursIn_cons_of (n : List Char) (d : Char) (t : List Char)
    (h : occursIn n t = true) : occursIn n (d :: t) = true := by
  simp [occursIn, h]

theorem occursIn_mid (pre n₁ n₂ suf : List Char) :
    occursIn (n₁ ++ n₂) ((pre ++ n₁) ++ (n₂ ++ suf)) = true := by
  have h : (pre ++ n₁) ++ (n₂ ++ suf) = pre ++ ((n₁ ++ n₂) ++ suf) := by
    simp [List.append_assoc]
  rw [h]
  exact occursIn_append_left _ _ _ (occursIn_self_append _ _)

/-- C8 (confirmed): authorization-URL construction is a pure deterministic
function of the client identifier and redirect destination: it produces
exactly the expected URL string, which contains the `client_id`,
`redirect_uri`, `response_type=code` and fixed-scope parameters, and it
issues no network request (and, being a total function, cannot fail). -/
theorem C8_login_url (c r : String) :
    (MainPy.login c r).1 =
      "https://api.dexcom.com/v2/oauth2/login?client_id=" ++ c
        ++ "&redirect_uri=" ++ r
        ++ "&response_type=code&scope=offline_access egv calibration device statistics event"
    ∧ (MainPy.login c r).2 = []
    ∧ strContains (MainPy.login c r).1 ("client_id=" ++ c) = true
    ∧ strContains (MainPy.login c r).1 ("redirect_uri=" ++ r) = true
    ∧ strContains (MainPy.login c r).1 "response_type=code" = true
    ∧ strContains (MainPy.login c r).1
        "scope=offline_access egv calibration device statistics event" = true := by
  have hdata : (MainPy.login c r).1.data =
      ("https://api.dexcom.com/v2/oauth2/login?client_id=" : String).data
        ++ (c.data ++ (("&redirect_uri=" : String).data ++ (r.data
          ++ ("&response_type=code&scope=offline_access egv calibration device statistics event" : String).data))) := by
    simp [MainPy.login, MainPy.DEXCOM_AUTH_URL, String.data_append,
      List.append_assoc]
  refine ⟨?_, rfl, ?_, ?_, ?_, ?_⟩
  · apply String.ext
    rw [hdata]
    simp [String.data_append, List.append_assoc]
  · show occursIn ("client_id=" ++ c).data (MainPy.login c r).1.data = true
    rw [String.data_append, hdata,
      show ("https://api.dexcom.com/v2/oauth2/login?client_id=" : String).data
        = ("https://api.dexcom.com/v2/oauth2/login?" : String).data
          ++ ("client_id=" : String).data from rfl]
    exact occursIn_mid _ _ _ _
  · show occursIn ("redirect_uri=" ++ r).data (MainPy.login c r).1.data = true
    rw [String.data_append, hdata,
      show ("&redirect_uri=" : String).data
        = ['&'] ++ ("redirect_uri=" : String).data from rfl]
    apply occursIn_append_left
    apply occursIn_append_left
    exact occursIn_mid ['&'] _ _ _
  · show occursIn ("response_type=code" : String).data
      (MainPy.login c r).1.data = true
    rw [hdata]
    apply occursIn_append_left
    apply occursIn_append_left
    apply occursIn_append_left
    apply occursIn_append_left
    rfl
  · show occursIn
      ("scope=offline_access egv calibration device statistics event" : String).data
      (MainPy.login c r).1.data = true
    rw [hdata]
    apply occursIn_append_left
    apply occursIn_append_left
    apply occursIn_append_left
    apply occursIn_append_left
    rfl

/-- C9 (confirmed): a successful refresh returns the new access token,
persists the newly returned credential wholesale to the token file as part
of the same operation, and loading that persisted credential from storage
(a fresh in-memory store, as at process start) yields exactly the
credential the refresh returned. -/
theorem C9_refresh_persistence_roundtrip (s : MainPy.St)
    (rt text atk : String) (body : Body) (rest : List NetResp)
    (hrt : s.mem.lookup "refresh_token" = some rt)
    (hat : body.fields.lookup "access_token" = some atk) :
    MainPy.refresh_access_token s (.ok 200 text body :: rest) =
      ⟨.tok atk, MainPy.save_tokens s body.fields, rest, [.postToken (some rt)]⟩
    ∧ (MainPy.save_tokens s body.fields).file = some body.fields
    ∧ (MainPy.load_tokens ⟨[], (MainPy.save_tokens s body.fields).file, none⟩).mem =
        body.fields := by
  refine ⟨?_, rfl, ?_⟩
  · simp [MainPy.refresh_access_token, hrt, hat]
  · simp [MainPy.load_tokens, MainPy.save_tokens, dictUpdate_nil_left]

/-- C9 witness: a concrete successful refresh followed by a fresh load
reproduces exactly the newly issued credential. -/
theorem C9_refresh_persistence_roundtrip_witness :
    MainPy.refresh_access_token
        ⟨[("access_token", "t0"), ("refresh_token", "r0")], none, none⟩
        [.ok 200 "" ⟨[("access_token", "a1"), ("refresh_token", "r1")], none⟩] =
      ⟨.tok "a1",
        MainPy.save_tokens
          ⟨[("access_token", "t0"), ("refresh_token", "r0")], none, none⟩
          [("access_token", "a1"), ("refresh_token", "r1")],
        [], [.postToken (some "r0")]⟩
    ∧ (MainPy.save_tokens
        ⟨[("access_token", "t0"), ("refresh_token", "r0")], none, none⟩
        [("access_token", "a1"), ("refresh_token", "r1")]).file =
      some [("access_token", "a1"), ("refresh_token", "r1")]
    ∧ (MainPy.load_tokens ⟨[],
        (MainPy.save_tokens
          ⟨[("access_token", "t0"), ("refresh_token", "r0")], none, none⟩
          [("access_token", "a1"), ("refresh_token", "r1")]).file, none⟩).mem =
      [("access_token", "a1"), ("refresh_token", "r1")] :=
  C9_refresh_persistence_roundtrip
    ⟨[("access_token", "t0"), ("refresh_token", "r0")], none, none⟩
    "r0" "" "a1" ⟨[("access_token", "a1"), ("refresh_token", "r1")], none⟩
    [] rfl rfl

/-- C10 (confirmed): the hardened callback's transient test is exactly a
substring match of `"502"` or `"UAM is down"` on the full response text,
and any non-success response passing it is retried after the 5-second
delay — the run continues as the loop with one fewer attempt, one more
POST and one more 5-second sleep recorded — even when the response is a
non-transient rejection that merely mentions those characters. -/
theorem C10_transient_substring_retry :
    (∀ (txt : String), MainPy.transientText txt =
      (strContains txt "502" || strContains txt "UAM is down"))
    ∧ (∀ (s : MainPy.St) (status : Nat) (text : String) (body : Body)
      (rest : List NetResp), ¬ status = 200 →
      MainPy.transientText text = true →
      MainPy.callback s (.ok status text body :: rest) =
        ⟨(MainPy.callbackLoop s 2 rest).res, (MainPy.callbackLoop s 2 rest).st,
          (MainPy.callbackLoop s 2 rest).rest,
          (MainPy.callbackLoop s 2 rest).posts + 1,
          5 :: (MainPy.callbackLoop s 2 rest).sleeps⟩) := by
  refine ⟨fun txt => rfl, ?_⟩
  intro s status text body rest h ht
  simp [MainPy.callback, MainPy.callbackLoop, h, ht]

/-- C10 witness: a concrete 400 rejection whose body merely mentions
"5023" is treated as transient and retried with a 5-second delay, the
outcome then decided by the second response. -/
theorem C10_transient_substring_retry_witness :
    MainPy.callback ⟨[], none, none⟩
        [.ok 400 "error invalid_grant ref 5023" ⟨[], none⟩,
         .ok 400 "denied" ⟨[], none⟩] =
      ⟨.vendorError "denied" 400, ⟨[], none, none⟩, [], 2, [5]⟩ :=
  (C10_transient_substring_retry.2 ⟨[], none, none⟩ 400
    "error invalid_grant ref 5023" ⟨[], none⟩ [.ok 400 "denied" ⟨[], none⟩]
    (by decide) (by decide)).trans rfl

